import Mathlib

/-!
Verification of the neural-salvage-service request-admission and content
logic.  The JavaScript sources are shallowly embedded: JSON values become an
inductive `Json` type, JavaScript truthiness and string conversion are made
explicit, the account store (a JSON file read and written wholesale) becomes
an explicit list of account records threaded through each operation, and
fallible operations return `Except`.  Machine integers do not occur: all
sizes and counters are unbounded naturals in the source (JS numbers used as
counters), modelled as `Nat`; JSON numbers are modelled as `Int`, which is
faithful for every payload the claims touch.
-/

namespace NS

/-- JSON values as delivered by the Express JSON body parser (`src/schema.js`
operates on such values).  Object fields keep insertion order; the parser
produces unique keys, so first-key lookup is faithful. -/
inductive Json where
  | null : Json
  | bool (b : Bool) : Json
  | num (n : Int) : Json
  | str (s : String) : Json
  | arr (elems : List Json) : Json
  | obj (fields : List (String × Json)) : Json

/-- JavaScript truthiness of a value (`!v` in the source negates this). -/
def truthy : Json → Bool
  | .null => false
  | .bool b => b
  | .num n => n != 0
  | .str s => s != ""
  | .arr _ => true
  | .obj _ => true

/-- Truthiness of a possibly-absent value (`undefined` is falsy). -/
def truthyOpt : Option Json → Bool
  | none => false
  | some v => truthy v

/-- Source `typeof v === 'object'` holds in JS for objects, arrays and `null`;
combined with the `!soul` guard the validator admits exactly objects and
arrays past its first check. -/
def isObjLike : Json → Bool
  | .arr _ => true
  | .obj _ => true
  | _ => false

/-- Property access `v.k` (returns `none` for JS `undefined`). -/
def Json.get : Json → String → Option Json
  | .obj fields, k => fields.lookup k
  | _, _ => none

/-- Source `Object.keys`: field names of an object, index strings of an array. -/
def jsKeys : Json → List String
  | .obj fields => fields.map Prod.fst
  | .arr elems => (List.range elems.length).map toString
  | _ => []

def hexDigit (n : Nat) : Char := "0123456789abcdef".data.getD n '0'

/-- Source `JSON.stringify` escaping for one character inside a string literal. -/
def escapeChar (c : Char) : String :=
  if c = '"' then "\\\""
  else if c = '\\' then "\\\\"
  else if c = '\n' then "\\n"
  else if c = '\r' then "\\r"
  else if c = '\t' then "\\t"
  else if c.toNat = 8 then "\\b"
  else if c.toNat = 12 then "\\f"
  else if c.toNat < 32 then "\\u00" ++ String.singleton (hexDigit (c.toNat / 16)) ++ String.singleton (hexDigit (c.toNat % 16))
  else String.singleton c

def jsonQuote (s : String) : String :=
  "\"" ++ String.join (s.data.map escapeChar) ++ "\""

mutual
/-- Compact `JSON.stringify(v)` as used for secret scanning and sizing. -/
def serialize : Json → String
  | .null => "null"
  | .bool b => if b then "true" else "false"
  | .num n => toString n
  | .str s => jsonQuote s
  | .arr elems => "[" ++ serializeElems elems ++ "]"
  | .obj fields => "\x7b" ++ serializeFields fields ++ "\x7d"

def serializeElems : List Json → String
  | [] => ""
  | [v] => serialize v
  | v :: w :: rest => serialize v ++ "," ++ serializeElems (w :: rest)

def serializeFields : List (String × Json) → String
  | [] => ""
  | [(k, v)] => jsonQuote k ++ ":" ++ serialize v
  | (k, v) :: f :: rest => jsonQuote k ++ ":" ++ serialize v ++ "," ++ serializeFields (f :: rest)
end

def spaces (n : Nat) : String := String.mk (List.replicate n ' ')

mutual
/-- Pretty `JSON.stringify(v, null, 2)` as used by the files projection. -/
def serializePrettyAt (depth : Nat) : Json → String
  | .arr [] => "[]"
  | .arr (v :: rest) =>
    "[\n" ++ prettyElems (depth + 1) (v :: rest) ++ "\n" ++ spaces (2 * depth) ++ "]"
  | .obj [] => "\x7b\x7d"
  | .obj (f :: rest) =>
    "\x7b\n" ++ prettyFields (depth + 1) (f :: rest) ++ "\n" ++ spaces (2 * depth) ++ "\x7d"
  | .null => "null"
  | .bool b => if b then "true" else "false"
  | .num n => toString n
  | .str s => jsonQuote s

def prettyElems (depth : Nat) : List Json → String
  | [] => ""
  | [v] => spaces (2 * depth) ++ serializePrettyAt depth v
  | v :: w :: rest =>
    spaces (2 * depth) ++ serializePrettyAt depth v ++ ",\n" ++ prettyElems depth (w :: rest)

def prettyFields (depth : Nat) : List (String × Json) → String
  | [] => ""
  | [(k, v)] => spaces (2 * depth) ++ jsonQuote k ++ ": " ++ serializePrettyAt depth v
  | (k, v) :: f :: rest =>
    spaces (2 * depth) ++ jsonQuote k ++ ": " ++ serializePrettyAt depth v ++ ",\n" ++ prettyFields depth (f :: rest)
end

def serializePretty (v : Json) : String := serializePrettyAt 0 v

mutual
/-- JavaScript string conversion as used by template interpolation
(arrays display as their elements joined by commas, with `null` elements
displayed as the empty string). -/
def jsDisplay : Json → String
  | .null => "null"
  | .bool b => if b then "true" else "false"
  | .num n => toString n
  | .str s => s
  | .arr elems => jsDisplayElems elems
  | .obj _ => "[object Object]"

def jsDisplayElems : List Json → String
  | [] => ""
  | [.null] => ""
  | [v] => jsDisplay v
  | .null :: w :: rest => "," ++ jsDisplayElems (w :: rest)
  | v :: w :: rest => jsDisplay v ++ "," ++ jsDisplayElems (w :: rest)
end

/-- Interpolation of a possibly-absent value (`undefined` shows as such). -/
def jsDisplayOpt : Option Json → String
  | none => "undefined"
  | some v => jsDisplay v

/-- Source `hay.includes(needle)` / `err.message.includes(...)` as a substring test. -/
def strContains (needle hay : String) : Bool :=
  hay.data.tails.any (fun t => needle.data.isPrefixOf t)

/-- Source `s.startsWith(p)`. -/
def jsStartsWith (p s : String) : Bool := p.data.isPrefixOf s.data

/-! ### Secret patterns (`src/schema.js`, `FORBIDDEN_PATTERNS`)

Each JS regular expression is unanchored (`pattern.test(serialized)`), so it
matches iff some position of the text starts a match.  Each entry below is
the match-at-a-position function; `testPattern` searches every position.
Character classes are the ASCII classes the regexes use. -/

def isAlnumAscii (c : Char) : Bool := c.isAlpha || c.isDigit

def isKeyChar (c : Char) : Bool := isAlnumAscii c || c = '-'

def isGoogleChar (c : Char) : Bool := isAlnumAscii c || c = '_' || c = '-'

/-- The characters `\s` matches in the payloads at issue (ASCII whitespace). -/
def isJsSpace (c : Char) : Bool :=
  c = ' ' || c = '\t' || c = '\n' || c = '\r' || c.toNat = 11 || c.toNat = 12

def asciiLower (c : Char) : Char :=
  if c.isUpper then Char.ofNat (c.toNat + 32) else c

/-- Literal followed by at least `low` characters of class `cls`
(`lit[cls]{low,}`; `{n}` inside an unanchored test behaves as `{n,}` at the
match position, and `+` is `{1,}`). -/
def litThenRunAt (lit : String) (cls : Char → Bool) (low : Nat) (cs : List Char) : Bool :=
  lit.data.isPrefixOf cs && ((cs.drop lit.length).takeWhile cls).length ≥ low

/-- Source `sk-[a-zA-Z0-9]{20,}` (OpenAI keys). -/
def openaiAt (cs : List Char) : Bool := litThenRunAt "sk-" isAlnumAscii 20 cs

/-- Source `sk-ant-[a-zA-Z0-9-]+` (Anthropic keys). -/
def anthropicAt (cs : List Char) : Bool := litThenRunAt "sk-ant-" isKeyChar 1 cs

/-- Source `sk-or-[a-zA-Z0-9-]+` (OpenRouter keys). -/
def openrouterAt (cs : List Char) : Bool := litThenRunAt "sk-or-" isKeyChar 1 cs

/-- Source `ghp_[a-zA-Z0-9]{36}` (GitHub PATs). -/
def githubPatAt (cs : List Char) : Bool := litThenRunAt "ghp_" isAlnumAscii 36 cs

/-- Source `gho_[a-zA-Z0-9]{36}` (GitHub OAuth). -/
def githubOauthAt (cs : List Char) : Bool := litThenRunAt "gho_" isAlnumAscii 36 cs

/-- Source `xai-[a-zA-Z0-9]+` (xAI keys). -/
def xaiAt (cs : List Char) : Bool := litThenRunAt "xai-" isAlnumAscii 1 cs

/-- Source `AIzaSy[a-zA-Z0-9_-]{33}` (Google API keys). -/
def googleAt (cs : List Char) : Bool := litThenRunAt "AIzaSy" isGoogleChar 33 cs

/-- After `-----BEGIN`: `.*PRIVATE KEY` — any run of non-newline characters
followed by the literal. -/
def pemScan : List Char → Bool
  | [] => false
  | c :: rest => "PRIVATE KEY".data.isPrefixOf (c :: rest) || (c != '\n' && pemScan rest)

/-- Source `-----BEGIN.*PRIVATE KEY` (private keys). -/
def pemAt (cs : List Char) : Bool :=
  "-----BEGIN".data.isPrefixOf cs && pemScan (cs.drop "-----BEGIN".length)

/-- Source `password\s*[:=]\s*\S+` with the case-insensitive flag (passwords):
the literal (case-folded), optional whitespace, a colon or equals sign,
optional whitespace, then at least one non-whitespace character. -/
def passwordAt (cs : List Char) : Bool :=
  ((cs.take 8).map asciiLower == "password".data) &&
    (match (cs.drop 8).dropWhile isJsSpace with
     | [] => false
     | c :: rest => (c = ':' || c = '=') && !(rest.dropWhile isJsSpace).isEmpty)

/-- Source `pattern.test(serialized)`: some position starts a match. -/
def testPattern (patAt : List Char → Bool) (s : String) : Bool :=
  s.data.tails.any patAt

/-- Source `FORBIDDEN_PATTERNS` in source order. -/
def FORBIDDEN_PATTERNS : List (String → Bool) :=
  [testPattern openaiAt,
   testPattern anthropicAt,
   testPattern openrouterAt,
   testPattern githubPatAt,
   testPattern githubOauthAt,
   testPattern xaiAt,
   testPattern googleAt,
   testPattern pemAt,
   testPattern passwordAt]

/-! ### Soul payload validation (`src/schema.js`, `validateSoulPayload`) -/

def identityMissingMsg : String :=
  "Soul must include an \"identity\" object (at minimum \x7b name: \"...\" \x7d)"

def identityNameMsg : String := "identity.name is required"

def secretWarning : String :=
  "⚠️ BLOCKED: Payload contains what looks like a secret/credential. Neural Salvage stores data permanently on a public blockchain — never include API keys, passwords, or private keys. Remove the sensitive data and try again."

/-- Source `(sizeBytes / 1_048_576).toFixed(1)` (tenths of a MiB, rounded;
floating-point formatting approximated by half-up rounding on tenths). -/
def toFixed1MB (sizeBytes : Nat) : String :=
  let tenths := (sizeBytes * 10 + 524288) / 1048576
  toString (tenths / 10) ++ "." ++ toString (tenths % 10)

def sizeMsg (sizeBytes : Nat) : String :=
  "Payload too large: " ++ toFixed1MB sizeBytes ++ "MB (max 100MB)"

/-- The pattern loop: test each pattern against the serialized payload and
push the single combined warning at the first match, then stop
(`break` in the source). -/
def scanPatterns : List (String → Bool) → String → List String
  | [], _ => []
  | p :: rest, serialized =>
    if p serialized then [secretWarning] else scanPatterns rest serialized

/-- Result of `validateSoulPayload`.  The source's early return for a
non-object input carries only `valid` and `errors`; the full report carries
the computed size, field list and presence flags, with
`valid = (errors.length === 0)`. -/
inductive ValidationResult where
  | malformed (errors : List String)
  | report (errors : List String) (size_bytes : Nat) (fields : List String)
      (has_memory has_personality has_tools has_files : Bool)

def ValidationResult.valid : ValidationResult → Bool
  | .malformed _ => false
  | .report errors _ _ _ _ _ _ => errors.isEmpty

def ValidationResult.errors : ValidationResult → List String
  | .malformed errors => errors
  | .report errors _ _ _ _ _ _ => errors

/-- Source `validateSoulPayload`, parameterized by the pattern list so that
order-independence can be stated; the checks run in source order (object
shape, identity, secret scan, absolute size cap) and failures accumulate in
`errors`. -/
def validateSoulPayloadWith (patterns : List (String → Bool)) (soul : Json) : ValidationResult :=
  if !truthy soul || !isObjLike soul then
    .malformed ["Soul must be a JSON object"]
  else
    let identityErrors :=
      if !truthyOpt (soul.get "identity") then [identityMissingMsg]
      else if !truthyOpt ((soul.get "identity").bind (fun j => j.get "name")) then [identityNameMsg]
      else []
    let serialized := serialize soul
    let secretErrors := scanPatterns patterns serialized
    let sizeBytes := serialized.utf8ByteSize
    let sizeErrors := if sizeBytes > 104857600 then [sizeMsg sizeBytes] else []
    let errors := identityErrors ++ secretErrors ++ sizeErrors
    .report errors sizeBytes (jsKeys soul)
      (truthyOpt (soul.get "memory"))
      (truthyOpt (soul.get "personality"))
      (truthyOpt (soul.get "tools"))
      (match soul.get "files" with
       | some (.arr elems) => !elems.isEmpty
       | _ => false)

def validateSoulPayload (soul : Json) : ValidationResult :=
  validateSoulPayloadWith FORBIDDEN_PATTERNS soul

/-! ### Accounts (`src/auth.js`)

The store is a JSON file holding one record per account id, read and written
wholesale; `Object.values` iterates records in insertion order, so the store
is embedded as a list of records in insertion order.  Randomness (UUID v4,
`crypto.randomBytes`) and the clock enter as explicit arguments, and the
SHA-256 digest is an explicit `hash` argument (`hashKey` in the source). -/

structure Account where
  id : String
  name : String
  type : String
  description : String
  metadata : Json
  tier : String
  apiKeyHash : String
  salvageCount : Nat
  totalBytes : Nat
  createdAt : String
  lastSalvage : Option String
  salvageTxIds : List String
  keyRotatedAt : Option String

abbrev Db := List Account

/-- Source `generateApiKey`: a prefixed token over fresh random hex characters. -/
def generateApiKey (entropyHex : String) : String := "ns_" ++ entropyHex

/-- Source `name.toLowerCase()` on the ASCII display names at issue. -/
def jsToLower (s : String) : String := String.mk (s.data.map asciiLower)

/-- Source `createAccount`: reject a display name already taken up to ASCII case,
otherwise insert a fresh free-tier record and hand back the plaintext key
exactly once.  Returns the store after the call together with the result. -/
def createAccount (hash : String → String) (db : Db)
    (name type : String) (description : Option String) (metadata : Option Json)
    (id entropyHex now : String) : Db × Except String (Account × String) :=
  match db.find? (fun a => jsToLower a.name == jsToLower name) with
  | some _ => (db, .error ("Account \"" ++ name ++ "\" already exists"))
  | none =>
    let apiKey := generateApiKey entropyHex
    let account : Account := {
      id := id
      name := name
      type := type
      description := description.getD ""
      metadata := metadata.getD (.obj [])
      tier := "free"
      apiKeyHash := hash apiKey
      salvageCount := 0
      totalBytes := 0
      createdAt := now
      lastSalvage := none
      salvageTxIds := []
      keyRotatedAt := none }
    (db ++ [account], .ok (account, apiKey))

/-- Status code chosen by the `/api/v1/register` handler for a result
(`409` when the failure message includes `already exists`, `201` on
success, `500` otherwise). -/
def registerStatus (res : Except String (Account × String)) : Nat :=
  match res with
  | .ok _ => 201
  | .error msg => if strContains "already exists" msg then 409 else 500

/-- Source `authenticate`: look up the account whose stored hash matches the hash
of the presented key; keys without the service prefix are rejected early. -/
def authenticate (hash : String → String) (db : Db) (apiKey : String) : Option Account :=
  if !jsStartsWith "ns_" apiKey then none
  else db.find? (fun a => a.apiKeyHash == hash apiKey)

/-- Source `getAccount`. -/
def getAccount (db : Db) (id : String) : Option Account :=
  db.find? (fun a => a.id == id)

/-- Source `rotateKey`: replace the stored hash with the hash of a fresh key and
return the fresh key; the store is otherwise untouched. -/
def rotateKey (hash : String → String) (db : Db)
    (accountId entropyHex now : String) : Db × Except String String :=
  match db.find? (fun a => a.id == accountId) with
  | none => (db, .error "Account not found")
  | some _ =>
    let newKey := generateApiKey entropyHex
    (db.map (fun a =>
      if a.id == accountId then { a with apiKeyHash := hash newKey, keyRotatedAt := some now } else a),
     .ok newKey)

/-! ### Free-tier quota gate (`server.js`, `/api/v1/salvage` handler)

The handler runs after validation: for a free-tier account it first applies
the month-boundary rate limit, then the 1 MiB size ceiling.  `isNewMonth`
compares calendar month and year fields only; dates are embedded by those
fields (plus the day, which the comparison ignores). -/

structure JsDate where
  year : Int
  month : Nat
  day : Nat
deriving DecidableEq

/-- Source `isNewMonth(lastDate)`: vacuously true with no previous submission,
otherwise a plain calendar-field comparison against the current date. -/
def isNewMonth (lastDate : Option JsDate) (now : JsDate) : Bool :=
  match lastDate with
  | none => true
  | some last => last.month != now.month || last.year != now.year

inductive FreeGateResult where
  | admitted
  | rateLimited
  | tooLarge
deriving DecidableEq

/-- The free-tier branch of the salvage handler (`server.js` lines 163-174):
reject `429` when the account already submitted this calendar month, else
reject `413` when the payload exceeds 1 MiB, else admit. -/
def freeTierGate (salvageCount : Nat) (lastSalvage : Option JsDate) (now : JsDate)
    (payloadSize : Nat) : FreeGateResult :=
  if salvageCount ≥ 1 && !isNewMonth lastSalvage now then .rateLimited
  else if payloadSize > 1048576 then .tooLarge
  else .admitted

/-! ### Listing salvages (`src/salvage.js`, `listSalvages`) -/

structure SalvageItem where
  tx_id : String
  arweave_url : Option String
  is_demo : Bool
deriving DecidableEq

structure SalvageList where
  salvages : List SalvageItem
  total : Nat
  limit : Nat
  offset : Nat
deriving DecidableEq

/-- Source `xs.slice(start, stop)` for in-range indices. -/
def jsSlice (xs : List α) (start stop : Nat) : List α := (xs.take stop).drop start

/-- Source `listSalvages`: page the stored identifier list (append order, oldest
first) with `slice(offset, offset + limit)` and reverse the slice. -/
def listSalvages (db : Db) (accountId : String) (limit offset : Nat) :
    Except String SalvageList :=
  match getAccount db accountId with
  | none => .error "Account not found"
  | some account =>
    let txIds := account.salvageTxIds
    let total := txIds.length
    let page := (jsSlice txIds offset (offset + limit)).reverse
    .ok {
      salvages := page.map (fun txId => {
        tx_id := txId
        arweave_url := if jsStartsWith "demo-" txId then none
          else some ("https://arweave.net/" ++ txId)
        is_demo := jsStartsWith "demo-" txId })
      total := total
      limit := limit
      offset := offset }

/-- Stated from the spec (refinement target for the listing claim): the page
at position `offset`, of length at most `limit`, of the full identifier list
ordered newest first. -/
def specNewestFirstPage (txIds : List String) (limit offset : Nat) : List String :=
  jsSlice txIds.reverse offset (offset + limit)

/-! ### Retrieval and revival (`src/salvage.js`, `src/revival.js`)

The permanent store and the transaction-tag index are opaque external
collaborators; they enter as functions `store` (identifier to the parsed
envelope payload, `none` when the identifier does not resolve) and `tags`
(identifier to decoded name/value tag pairs). -/

inductive SalvageError where
  | notFound (txId : String)
  | invalidSoul
deriving DecidableEq

/-- The `Error.message` texts thrown by the source. -/
def SalvageError.message : SalvageError → String
  | .notFound txId => "Salvage not found: " ++ txId
  | .invalidSoul => "Salvage does not contain a valid soul"

inductive RetrieveResult where
  | demo (tx_id : String)
  | found (tx_id : String) (tags : List (String × String)) (payload : Json)

/-- Source `retrieveSalvage`: placeholder identifiers short-circuit to the demo
response; otherwise an identifier that does not resolve raises the
not-found error and a resolved one returns tags and payload. -/
def retrieveSalvage (store : String → Option Json)
    (tags : String → List (String × String)) (txId : String) :
    Except SalvageError RetrieveResult :=
  if jsStartsWith "demo-" txId then .ok (.demo txId)
  else
    match store txId with
    | none => .error (.notFound txId)
    | some payload => .ok (.found txId (tags txId) payload)

/-- Status code chosen by the `GET /api/v1/salvage/:txId` handler: `404`
when the failure message includes `not found`, `500` otherwise. -/
def retrieveStatus (res : Except SalvageError RetrieveResult) : Nat :=
  match res with
  | .ok _ => 200
  | .error e => if strContains "not found" e.message then 404 else 500

/-! Files projection (`src/revival.js`, `soulToFiles`).  File paths and
contents are raw JS values pushed onto the list, so entries are pairs of
`Json` values; contents built from template strings or `JSON.stringify` are
`.str` values. -/

def identityFiles (soul : Json) : List (Json × Json) :=
  let idv := soul.get "identity"
  if truthyOpt idv then
    [(.str "IDENTITY.md",
      match idv.getD .null with
      | .str s => .str s
      | idj => .str ("# Identity\n\nName: " ++ jsDisplayOpt (idj.get "name") ++ "\n" ++
          (if truthyOpt (idj.get "description") then
            "Description: " ++ jsDisplayOpt (idj.get "description") ++ "\n"
          else "")))]
  else []

def personalityFiles (soul : Json) : List (Json × Json) :=
  let pv := soul.get "personality"
  if truthyOpt pv then
    [(.str "SOUL.md",
      match pv.getD .null with
      | .str s => .str s
      | pj => .str (serializePretty pj))]
  else []

def memoryFiles (soul : Json) : List (Json × Json) :=
  let mv := soul.get "memory"
  if truthyOpt mv then
    match mv.getD .null with
    | .str s => [(.str "MEMORY.md", .str s)]
    | mj =>
      (if truthyOpt (mj.get "long_term") then
        [(.str "MEMORY.md", (mj.get "long_term").getD .null)]
      else []) ++
      (match mj.get "daily_logs" with
       | some (.arr logs) => logs.filterMap (fun log =>
           if truthyOpt (log.get "date") && truthyOpt (log.get "content") then
             some (.str ("memory/" ++ jsDisplayOpt (log.get "date") ++ ".md"),
               (log.get "content").getD .null)
           else none)
       | _ => [])
  else []

def toolsFiles (soul : Json) : List (Json × Json) :=
  let tv := soul.get "tools"
  if truthyOpt tv then
    [(.str "TOOLS.md",
      match tv.getD .null with
      | .str s => .str s
      | tj => .str (serializePretty tj))]
  else []

def configFiles (soul : Json) : List (Json × Json) :=
  let cv := soul.get "config"
  if truthyOpt cv then [(.str "config.json", .str (serializePretty (cv.getD .null)))]
  else []

def extraFiles (soul : Json) : List (Json × Json) :=
  match soul.get "files" with
  | some (.arr fs) => fs.filterMap (fun f =>
      if truthyOpt (f.get "path") && truthyOpt (f.get "content") then
        some ((f.get "path").getD .null, (f.get "content").getD .null)
      else none)
  | _ => []

/-- Source `soulToFiles`: the pushes happen in source order — identity,
personality, memory, tools, config, then caller-supplied extra files. -/
def soulToFiles (soul : Json) : List (Json × Json) :=
  identityFiles soul ++ personalityFiles soul ++ memoryFiles soul ++
    toolsFiles soul ++ configFiles soul ++ extraFiles soul

def suggestedStructure : List (String × String) :=
  [("SOUL.md", "Personality and behavior"),
   ("IDENTITY.md", "Name, description, emoji"),
   ("MEMORY.md", "Long-term curated memory"),
   ("TOOLS.md", "Environment and capabilities"),
   ("USER.md", "Info about the human"),
   ("memory/", "Daily logs (YYYY-MM-DD.md)"),
   ("AGENTS.md", "Operating instructions"),
   ("BOOTSTRAP.md", "Session startup ritual")]

structure Workspace where
  files : List (Json × Json)
  suggested_structure : List (String × String)

def soulToOpenClawWorkspace (soul : Json) : Workspace :=
  { files := soulToFiles soul, suggested_structure := suggestedStructure }

/-- Source `v || fallback` then template interpolation. -/
def jsOrDisplay (v : Option Json) (fallback : String) : String :=
  if truthyOpt v then jsDisplayOpt v else fallback

def getBootstrapInstructions (soul : Json) : String :=
  "# Revival Bootstrap\n\nThis agent was revived from Neural Salvage (Arweave permanent storage).\n\n## Steps:\n1. Write all files from the \x27files\x27 array to your workspace\n2. Read SOUL.md to restore personality\n3. Read MEMORY.md to restore long-term knowledge\n4. Read IDENTITY.md to restore name and identity\n5. You are now revived. Your soul persists.\n\n## Original Identity\n- Name: " ++
    jsOrDisplay ((soul.get "identity").bind (fun j => j.get "name")) "Unknown" ++
    "\n- Platform: " ++
    jsOrDisplay ((soul.get "identity").bind (fun j => j.get "platform")) "Unknown" ++
    "\n- Salvaged: " ++
    jsOrDisplay ((soul.get "identity").bind (fun j => j.get "salvaged_at")) "Unknown" ++
    "\n\n## Note\nYour API keys, credentials, and secrets were NOT salvaged (by design).\nYou\x27ll need your human to provide those again.\n"

def getDemoSoul : Json :=
  .obj [("identity", .obj [("name", .str "Demo Agent"),
          ("description", .str "A demonstration revival")]),
        ("memory", .obj [("long_term",
          .str "# Memory\n\nThis is a demo revival. No real state was stored.")]),
        ("personality", .str "# Soul\n\nDemo personality.")]

inductive ReviveResult where
  | demo (tx_id : String) (soul : Json) (format : String)
  | filesResult (tx_id : String) (files : List (Json × Json)) (metadata : Option Json)
  | openclaw (tx_id : String) (workspace : Workspace) (bootstrap_instructions : String)
      (metadata : Option Json)
  | structured (tx_id : String) (soul : Json) (metadata : Option Json)

/-- Source `reviveFromSalvage`: fetch, guard that the envelope carries a truthy
soul, then project per the requested format (`structured` is also the
default for unknown formats). -/
def reviveFromSalvage (store : String → Option Json)
    (tags : String → List (String × String)) (txId : String) (format : String) :
    Except SalvageError ReviveResult :=
  match retrieveSalvage store tags txId with
  | .error e => .error e
  | .ok (.demo t) => .ok (.demo t getDemoSoul format)
  | .ok (.found t _ payload) =>
    let soulOpt := payload.get "soul"
    if !truthyOpt soulOpt then .error .invalidSoul
    else
      let soul := soulOpt.getD .null
      let md := payload.get "metadata"
      if format == "files" then .ok (.filesResult t (soulToFiles soul) md)
      else if format == "openclaw" then
        .ok (.openclaw t (soulToOpenClawWorkspace soul) (getBootstrapInstructions soul) md)
      else .ok (.structured t soul md)

/-! ### Payments (`src/payments.js`) -/

structure VerifyResult where
  payment_id : String
  tx_signature : String
  status : String
  message : String
  note : String
deriving DecidableEq

/-- Source `verifyPayment`: log and acknowledge; the account store is neither read
nor written (the source never calls `upgradeTier` or touches the store
here), so the embedding threads the store through unchanged. -/
def verifyPayment (db : Db) (paymentId txSignature : String) : Db × VerifyResult :=
  (db,
   { payment_id := paymentId
     tx_signature := txSignature
     status := "pending_review"
     message := "Payment recorded. Manual verification in progress — your account will be upgraded within 24 hours."
     note := "Automated on-chain verification coming soon." })

/-! ### Views of the validator's intermediate lists (used to state lemmas) -/

/-- The identity-related errors the validator accumulates. -/
def identityErrorsOf (soul : Json) : List String :=
  if !truthyOpt (soul.get "identity") then [identityMissingMsg]
  else if !truthyOpt ((soul.get "identity").bind (fun j => j.get "name")) then [identityNameMsg]
  else []

/-- The absolute-size errors the validator accumulates. -/
def sizeErrorsOf (soul : Json) : List String :=
  if (serialize soul).utf8ByteSize > 104857600 then [sizeMsg (serialize soul).utf8ByteSize]
  else []

/-- The `has_files` flag of the validator's report. -/
def filesFlagOf (soul : Json) : Bool :=
  match soul.get "files" with
  | some (.arr elems) => !elems.isEmpty
  | _ => false

/-! ### Concrete records used by closed theorems -/

/-- A stored account with two archived identifiers, `t1` oldest and `t2`
newest (identifiers are appended on each salvage). -/
def accountC2 : Account :=
  { id := "acct-1"
    name := "Kara"
    type := "agent"
    description := ""
    metadata := .obj []
    tier := "free"
    apiKeyHash := "hash1"
    salvageCount := 2
    totalBytes := 10
    createdAt := "2026-02-01T00:00:00.000Z"
    lastSalvage := some "2026-02-03T00:00:00.000Z"
    salvageTxIds := ["t1", "t2"]
    keyRotatedAt := none }

/-- A stored account whose credential hash (under the toy digest
`fun s => "h|" ++ s`) corresponds to the plaintext key `ns_old`. -/
def accountC8 : Account :=
  { id := "A1"
    name := "Rex"
    type := "agent"
    description := ""
    metadata := .obj []
    tier := "free"
    apiKeyHash := "h|ns_old"
    salvageCount := 0
    totalBytes := 0
    createdAt := "2026-02-01T00:00:00.000Z"
    lastSalvage := none
    salvageTxIds := []
    keyRotatedAt := none }

/-- An external-store stub: one resolvable identifier whose payload has no
soul document, everything else unresolved. -/
def storeC6 : String → Option Json :=
  fun txId => if txId == "bad1" then some (.obj [("version", .str "1.0")]) else none

def tagsC6 : String → List (String × String) := fun _ => []

/-! ### Helper lemmas -/

theorem strContains_iff (needle hay : String) :
    strContains needle hay = true ↔ needle.data <:+: hay.data := by
  simp only [strContains, List.any_eq_true, List.mem_tails,
    List.isPrefixOf_iff_prefix, List.infix_iff_prefix_suffix]
  exact ⟨fun ⟨t, h1, h2⟩ => ⟨t, h2, h1⟩, fun ⟨t, h1, h2⟩ => ⟨t, h2, h1⟩⟩

theorem strContains_append_left (needle a b : String)
    (h : strContains needle b = true) : strContains needle (a ++ b) = true := by
  rw [strContains_iff] at h ⊢
  rw [String.data_append]
  exact h.trans ( List.IsSuffix.isInfix (List.suffix_append a.data b.data))

theorem strContains_append_right (needle a b : String)
    (h : strContains needle a = true) : strContains needle (a ++ b) = true := by
  rw [strContains_iff] at h ⊢
  rw [String.data_append]
  exact h.trans ( List.IsPrefix.isInfix (List.prefix_append a.data b.data))

theorem strContains_self (s : String) : strContains s s = true := by
  rw [strContains_iff]

theorem jsStartsWith_append (p s : String) : jsStartsWith p (p ++ s) = true := by
  simp only [jsStartsWith, String.data_append, List.isPrefixOf_iff_prefix]
  exact List.prefix_append p.data s.data

theorem scanPatterns_eq (patterns : List (String → Bool)) (s : String) :
    scanPatterns patterns s =
      if patterns.any (fun p => p s) then [secretWarning] else [] := by
  induction patterns with
  | nil => rfl
  | cons p rest ih =>
    by_cases h : p s <;> simp [scanPatterns, List.any_cons, h, ih]

/-! ### Claims -/

/-- C1: a free-tier submission is admitted iff the account has never
submitted or its last-submission month/year differs from the current
month/year (calendar-field comparison), and the payload is at most 1 MiB
(1,048,576 bytes); when both checks fail the rate-limit rejection is
reported, not the size rejection; and an account that last submitted in
January 2026 is admitted again on any day of February 2026 (cross-month
boundary, in particular last day to first day). -/
theorem c1_free_tier_admission (salvageCount : Nat) (lastSalvage : Option JsDate)
    (now : JsDate) (payloadSize : Nat) :
    (freeTierGate salvageCount lastSalvage now payloadSize = .admitted ↔
      ((salvageCount = 0 ∨ isNewMonth lastSalvage now = true) ∧ payloadSize ≤ 1048576)) ∧
    (salvageCount ≥ 1 → isNewMonth lastSalvage now = false → 1048576 < payloadSize →
      freeTierGate salvageCount lastSalvage now payloadSize = .rateLimited) ∧
    (∀ lastDay firstDay size2, size2 ≤ 1048576 →
      freeTierGate salvageCount (some ⟨2026, 1, lastDay⟩) ⟨2026, 2, firstDay⟩ size2 = .admitted) := by
  refine ⟨?_, ?_, ?_⟩
  · unfold freeTierGate
    split_ifs with h1 h2
    · simp only [Bool.and_eq_true, decide_eq_true_eq, Bool.not_eq_true'] at h1
      constructor
      · intro h; exact absurd h (by simp)
      · rintro ⟨h0 | hm, _⟩
        · omega
        · rw [hm] at h1; exact absurd h1.2 (by simp)
    · simp only [Bool.and_eq_true, decide_eq_true_eq, Bool.not_eq_true',
        not_and_or, not_le] at h1
      constructor
      · intro h; exact absurd h (by simp)
      · rintro ⟨_, hsize⟩; omega
    · simp only [Bool.and_eq_true, decide_eq_true_eq, Bool.not_eq_true',
        not_and_or, not_le] at h1
      simp only [true_iff]
      refine ⟨?_, by omega⟩
      rcases h1 with h0 | hm
      · left; omega
      · right; simpa using hm
  · intro hc hm hs
    unfold freeTierGate
    simp [hm, hc]
  · intro lastDay firstDay size2 hsize
    unfold freeTierGate
    simp [isNewMonth]
    omega

/-- C1 witness: with quota used this month the oversized second attempt is
reported as rate-limited, and a last-of-January submitter is admitted on the
first of February. -/
theorem c1_free_tier_admission_witness :
    freeTierGate 1 (some ⟨2026, 1, 15⟩) ⟨2026, 1, 20⟩ 2000000 = .rateLimited ∧
    freeTierGate 1 (some ⟨2026, 1, 31⟩) ⟨2026, 2, 1⟩ 100 = .admitted :=
  ⟨(c1_free_tier_admission 1 (some ⟨2026, 1, 15⟩) ⟨2026, 1, 20⟩ 2000000).2.1
      (by decide) (by decide) (by decide),
   (c1_free_tier_admission 1 (some ⟨2026, 1, 31⟩) ⟨2026, 2, 1⟩ 100).2.2 31 1 100 (by decide)⟩

/-- C9: a crypto payment-verification call acknowledges with status
`pending_review` and leaves the entire account store — in particular every
account's tier — unchanged. -/
theorem c9_verify_payment_frame (db : Db) (paymentId txSignature : String) :
    (verifyPayment db paymentId txSignature).1 = db ∧
    (verifyPayment db paymentId txSignature).2.status = "pending_review" ∧
    ((verifyPayment db paymentId txSignature).1).map Account.tier = db.map Account.tier :=
  ⟨rfl, rfl, rfl⟩

/-- C2: with two stored identifiers and `limit = 1, offset = 0` the code
returns the page `[t1]` — the OLDEST identifier — because it slices the
append-ordered list before reversing, while the page at position 0 of the
newest-first ordering is `[t2]`.  The claim (and the source's own
`newest first` comment) therefore fails whenever `offset + limit` does not
cover the whole list. -/
theorem c2_listing_code_bug :
    listSalvages [accountC2] "acct-1" 1 0 =
      .ok ⟨[⟨"t1", some "https://arweave.net/t1", false⟩], 2, 1, 0⟩ ∧
    specNewestFirstPage accountC2.salvageTxIds 1 0 = ["t2"] ∧
    ["t1"] ≠ specNewestFirstPage accountC2.salvageTxIds 1 0 := by
  refine ⟨by rfl, by rfl, by decide⟩

/-- C6: a non-placeholder identifier that does not resolve in the permanent
store fails with the not-found error, which the retrieval endpoint maps to
404, never to the generic 500; and a resolved envelope without a truthy
soul document fails revival with the invalid-salvage-content error, a
condition distinct from not-found (different constructor, and its message
is not classified as `not found` by the handlers). -/
theorem c6_retrieval_error_conditions (store : String → Option Json)
    (tags : String → List (String × String)) (txId : String)
    (hNotDemo : jsStartsWith "demo-" txId = false) :
    (store txId = none →
      retrieveSalvage store tags txId = .error (.notFound txId) ∧
      retrieveStatus (retrieveSalvage store tags txId) = 404) ∧
    (∀ payload format, store txId = some payload →
      truthyOpt (payload.get "soul") = false →
      reviveFromSalvage store tags txId format = .error .invalidSoul ∧
      SalvageError.invalidSoul ≠ SalvageError.notFound txId ∧
      strContains "not found" (SalvageError.message .invalidSoul) = false) := by
  constructor
  · intro hnone
    have hret : retrieveSalvage store tags txId = .error (.notFound txId) := by
      unfold retrieveSalvage
      rw [hNotDemo]
      simp [hnone]
    refine ⟨hret, ?_⟩
    rw [hret]
    unfold retrieveStatus
    have hmsg : strContains "not found" (SalvageError.message (.notFound txId)) = true := by
      show strContains "not found" ("Salvage not found: " ++ txId) = true
      exact strContains_append_right _ _ _ (by decide)
    simp [hmsg]
  · intro payload format hsome hsoul
    refine ⟨?_, fun h => SalvageError.noConfusion h, by decide⟩
    unfold reviveFromSalvage retrieveSalvage
    rw [hNotDemo]
    simp [hsome, hsoul]

/-- C6 witness: the unresolved identifier maps to 404 and the soulless
envelope to the invalid-content error. -/
theorem c6_retrieval_error_conditions_witness :
    retrieveStatus (retrieveSalvage storeC6 tagsC6 "missing1") = 404 ∧
    reviveFromSalvage storeC6 tagsC6 "bad1" "structured" = .error .invalidSoul :=
  ⟨((c6_retrieval_error_conditions storeC6 tagsC6 "missing1" (by decide)).1 rfl).2,
   ((c6_retrieval_error_conditions storeC6 tagsC6 "bad1" (by decide)).2
      (.obj [("version", .str "1.0")]) "structured" rfl (by decide)).1⟩

theorem identityMissingMsg_ne : (identityMissingMsg == secretWarning) = false := by decide

theorem identityNameMsg_ne : (identityNameMsg == secretWarning) = false := by decide

theorem sizeMsg_ne_secretWarning (n : Nat) : (sizeMsg n == secretWarning) = false := by
  rw [beq_eq_false_iff_ne]
  intro h
  have hd := congrArg List.head? (congrArg String.data h)
  rw [show (sizeMsg n).data.head? = some 'P' from rfl,
    show secretWarning.data.head? = some '⚠' from rfl] at hd
  exact absurd hd (by decide)

/-- On a truthy object-like payload the validator reaches its main return,
whose error list is the identity errors, then the secret-scan result, then
the size errors. -/
theorem validate_obj_eq (patterns : List (String → Bool)) (soul : Json)
    (hTruthy : truthy soul = true) (hShape : isObjLike soul = true) :
    validateSoulPayloadWith patterns soul = .report
      (identityErrorsOf soul ++ scanPatterns patterns (serialize soul) ++ sizeErrorsOf soul)
      (serialize soul).utf8ByteSize (jsKeys soul)
      (truthyOpt (soul.get "memory")) (truthyOpt (soul.get "personality"))
      (truthyOpt (soul.get "tools")) (filesFlagOf soul) := by
  unfold validateSoulPayloadWith identityErrorsOf sizeErrorsOf filesFlagOf
  rw [hTruthy, hShape]
  rfl

/-- C3: whenever the serialized payload of a structured (object-like,
truthy) document matches at least one of the fixed secret patterns, the
validator rejects, its problem list carries the single combined secret
warning exactly once (the loop stops after the first matching pattern), and
the entire validation result is unchanged under any permutation of the
pattern list — so neither rejection nor the reported warning depends on
which pattern matched first. -/
theorem c3_secret_rejection (soul : Json)
    (hTruthy : truthy soul = true) (hShape : isObjLike soul = true)
    (hMatch : FORBIDDEN_PATTERNS.any (fun p => p (serialize soul)) = true) :
    (validateSoulPayload soul).valid = false ∧
    (validateSoulPayload soul).errors.count secretWarning = 1 ∧
    (∀ patterns : List (String → Bool), patterns.Perm FORBIDDEN_PATTERNS →
      validateSoulPayloadWith patterns soul = validateSoulPayload soul) := by
  have hscan : scanPatterns FORBIDDEN_PATTERNS (serialize soul) = [secretWarning] := by
    rw [scanPatterns_eq]; simp [hMatch]
  have hmain := validate_obj_eq FORBIDDEN_PATTERNS soul hTruthy hShape
  refine ⟨?_, ?_, ?_⟩
  · show (validateSoulPayloadWith FORBIDDEN_PATTERNS soul).valid = false
    rw [hmain, hscan]
    show (identityErrorsOf soul ++ [secretWarning] ++ sizeErrorsOf soul).isEmpty = false
    simp
  · show (validateSoulPayloadWith FORBIDDEN_PATTERNS soul).errors.count secretWarning = 1
    rw [hmain, hscan]
    show (identityErrorsOf soul ++ [secretWarning] ++ sizeErrorsOf soul).count secretWarning = 1
    rw [List.count_append, List.count_append]
    have h1 : (identityErrorsOf soul).count secretWarning = 0 := by
      unfold identityErrorsOf
      split_ifs <;> simp [List.count_cons, identityMissingMsg_ne, identityNameMsg_ne]
    have h2 : (sizeErrorsOf soul).count secretWarning = 0 := by
      unfold sizeErrorsOf
      split_ifs <;> simp [List.count_cons, sizeMsg_ne_secretWarning]
    rw [h1, h2]
    simp [List.count_cons]
  · intro patterns hperm
    show _ = validateSoulPayloadWith FORBIDDEN_PATTERNS soul
    rw [validate_obj_eq patterns soul hTruthy hShape, hmain]
    have hany : patterns.any (fun p => p (serialize soul)) =
        FORBIDDEN_PATTERNS.any (fun p => p (serialize soul)) := by
      rw [Bool.eq_iff_iff]
      simp only [List.any_eq_true]
      exact ⟨fun ⟨x, hx, hp⟩ => ⟨x, hperm.mem_iff.mp hx, hp⟩,
        fun ⟨x, hx, hp⟩ => ⟨x, hperm.mem_iff.mpr hx, hp⟩⟩
    rw [scanPatterns_eq, scanPatterns_eq, hany]

/-- C3 witness: a payload embedding a `password=` assignment is rejected
with the combined warning exactly once. -/
theorem c3_secret_rejection_witness :
    (validateSoulPayload (.obj [("identity", .obj [("name", .str "A")]),
        ("personality", .str "password=x")])).valid = false ∧
    (validateSoulPayload (.obj [("identity", .obj [("name", .str "A")]),
        ("personality", .str "password=x")])).errors.count secretWarning = 1 := by
  have h := c3_secret_rejection (.obj [("identity", .obj [("name", .str "A")]),
      ("personality", .str "password=x")]) (by decide) (by decide) (by decide)
  exact ⟨h.1, h.2.1⟩

/-- C4: a structured document whose `identity.name` is absent (including
when `identity` itself is missing) or the empty string is rejected, with at
least one problem mentioning both `identity` and `name`. -/
theorem c4_identity_name_required (soul : Json)
    (hTruthy : truthy soul = true) (hShape : isObjLike soul = true)
    (hName : (soul.get "identity").bind (fun j => j.get "name") = none ∨
      (soul.get "identity").bind (fun j => j.get "name") = some (.str "")) :
    (validateSoulPayload soul).valid = false ∧
    ∃ e, e ∈ (validateSoulPayload soul).errors ∧
      strContains "identity" e = true ∧ strContains "name" e = true := by
  have hmain := validate_obj_eq FORBIDDEN_PATTERNS soul hTruthy hShape
  have hid : identityErrorsOf soul = [identityMissingMsg] ∨
      identityErrorsOf soul = [identityNameMsg] := by
    unfold identityErrorsOf
    cases hidt : truthyOpt (soul.get "identity") with
    | false => left; simp [hidt]
    | true =>
      right
      rcases hName with h | h <;> simp [hidt, h, truthyOpt, truthy]
  constructor
  · show (validateSoulPayloadWith FORBIDDEN_PATTERNS soul).valid = false
    rw [hmain]
    show (identityErrorsOf soul ++ scanPatterns FORBIDDEN_PATTERNS (serialize soul) ++
      sizeErrorsOf soul).isEmpty = false
    rcases hid with h | h <;> simp [h]
  · show ∃ e, e ∈ (validateSoulPayloadWith FORBIDDEN_PATTERNS soul).errors ∧
      strContains "identity" e = true ∧ strContains "name" e = true
    rw [hmain]
    show ∃ e, e ∈ (identityErrorsOf soul ++ scanPatterns FORBIDDEN_PATTERNS (serialize soul) ++
      sizeErrorsOf soul) ∧ strContains "identity" e = true ∧ strContains "name" e = true
    rcases hid with h | h
    · exact ⟨identityMissingMsg,
        List.mem_append_left _ (List.mem_append_left _ (by rw [h]; simp)),
        by decide, by decide⟩
    · exact ⟨identityNameMsg,
        List.mem_append_left _ (List.mem_append_left _ (by rw [h]; simp)),
        by decide, by decide⟩

/-- C4 witness: a document with no `identity` field at all is rejected with
a problem mentioning the identity name requirement. -/
theorem c4_identity_name_required_witness :
    (validateSoulPayload (.obj [("memory", .str "m")])).valid = false ∧
    ∃ e, e ∈ (validateSoulPayload (.obj [("memory", .str "m")])).errors ∧
      strContains "identity" e = true ∧ strContains "name" e = true :=
  c4_identity_name_required (.obj [("memory", .str "m")]) (by decide) (by decide) (Or.inl rfl)

/-- C5 counterexample: a soul document with string `identity.name` `Ada`
and the (empty) string personality `""` projects to a file list containing
only `IDENTITY.md` — no `SOUL.md` entry exists at all, because the source
guards the personality block with JS truthiness and the empty string is
falsy.  So the claim as stated (every string personality yields a `SOUL.md`
entry equal to the personality text) fails. -/
theorem c5_roundtrip_counterexample :
    ((Json.obj [("identity", Json.obj [("name", Json.str "Ada")]),
        ("personality", Json.str "")]).get "identity").bind (fun j => j.get "name") =
      some (Json.str "Ada") ∧
    (Json.obj [("identity", Json.obj [("name", Json.str "Ada")]),
        ("personality", Json.str "")]).get "personality" = some (Json.str "") ∧
    (soulToFiles (Json.obj [("identity", Json.obj [("name", Json.str "Ada")]),
        ("personality", Json.str "")])).map Prod.fst = [Json.str "IDENTITY.md"] :=
  ⟨rfl, rfl, rfl⟩

/-- C5 (amended): for every soul document with a string `identity.name` and
a non-empty string `personality`, the files projection contains an
`IDENTITY.md` entry whose content includes the identity name, and a
`SOUL.md` entry whose content is exactly the personality text. -/
theorem c5_roundtrip_amended (soul idj : Json) (name p : String)
    (hid : soul.get "identity" = some idj)
    (hname : idj.get "name" = some (.str name))
    (hp : soul.get "personality" = some (.str p)) (hpne : p ≠ "") :
    (∃ c : String, (Json.str "IDENTITY.md", Json.str c) ∈ soulToFiles soul ∧
      strContains name c = true) ∧
    (Json.str "SOUL.md", Json.str p) ∈ soulToFiles soul := by
  obtain ⟨fs, rfl⟩ : ∃ fs, idj = Json.obj fs := by
    cases idj with
    | obj fields => exact ⟨fields, rfl⟩
    | null => exact absurd hname (by simp [Json.get])
    | bool b => exact absurd hname (by simp [Json.get])
    | num n => exact absurd hname (by simp [Json.get])
    | str s => exact absurd hname (by simp [Json.get])
    | arr elems => exact absurd hname (by simp [Json.get])
  have hidfiles : identityFiles soul = [(.str "IDENTITY.md",
      .str ("# Identity\n\nName: " ++ name ++ "\n" ++
        (if truthyOpt ((Json.obj fs).get "description") then
          "Description: " ++ jsDisplayOpt ((Json.obj fs).get "description") ++ "\n"
        else "")))] := by
    unfold identityFiles
    rw [hid]
    simp only [truthyOpt, truthy, Option.getD, hname]
    rfl
  have hpfiles : personalityFiles soul = [(.str "SOUL.md", .str p)] := by
    unfold personalityFiles
    rw [hp]
    have : truthy (Json.str p) = true := by
      simp [truthy, bne, hpne]
    simp only [truthyOpt, this, Option.getD]
    rfl
  refine ⟨⟨"# Identity\n\nName: " ++ name ++ "\n" ++
      (if truthyOpt ((Json.obj fs).get "description") then
        "Description: " ++ jsDisplayOpt ((Json.obj fs).get "description") ++ "\n"
      else ""), ?_, ?_⟩, ?_⟩
  · unfold soulToFiles
    rw [hidfiles]
    exact List.mem_append_left _ (List.mem_append_left _ (List.mem_append_left _
      (List.mem_append_left _ (List.mem_append_left _ (List.mem_singleton.mpr rfl)))))
  · exact strContains_append_right _ _ _ (strContains_append_right _ _ _
      (strContains_append_left _ _ _ (strContains_self name)))
  · unfold soulToFiles
    rw [hpfiles]
    exact List.mem_append_left _ (List.mem_append_left _ (List.mem_append_left _
      (List.mem_append_left _ (List.mem_append_right _ (List.mem_singleton.mpr rfl)))))

/-- C5 witness: the amended round-trip at a concrete soul document. -/
theorem c5_roundtrip_amended_witness :
    (∃ c : String, (Json.str "IDENTITY.md", Json.str c) ∈
        soulToFiles (Json.obj [("identity", Json.obj [("name", Json.str "Ada")]),
          ("personality", Json.str "Keeps calm.")]) ∧
      strContains "Ada" c = true) ∧
    (Json.str "SOUL.md", Json.str "Keeps calm.") ∈
      soulToFiles (Json.obj [("identity", Json.obj [("name", Json.str "Ada")]),
        ("personality", Json.str "Keeps calm.")]) :=
  c5_roundtrip_amended
    (Json.obj [("identity", Json.obj [("name", Json.str "Ada")]),
      ("personality", Json.str "Keeps calm.")])
    (Json.obj [("name", Json.str "Ada")]) "Ada" "Keeps calm."
    rfl rfl rfl (by decide)

/-- C7: registering a display name equal to an existing account's name up
to ASCII case fails, the failure is reported as a conflict (409), and the
store — in particular the original account's record — is left unchanged. -/
theorem c7_duplicate_name_conflict (hash : String → String) (db : Db)
    (name type : String) (description : Option String) (metadata : Option Json)
    (id entropyHex now : String) (a : Account)
    (hmem : a ∈ db) (hdup : jsToLower a.name = jsToLower name) :
    (createAccount hash db name type description metadata id entropyHex now).1 = db ∧
    ∃ msg, (createAccount hash db name type description metadata id entropyHex now).2 =
        .error msg ∧
      registerStatus (createAccount hash db name type description metadata id entropyHex now).2
        = 409 := by
  have hfind : (db.find? (fun b => jsToLower b.name == jsToLower name)).isSome := by
    rw [List.find?_isSome]
    exact ⟨a, hmem, by simp [hdup]⟩
  obtain ⟨b, hb⟩ := Option.isSome_iff_exists.mp hfind
  have hcreate : createAccount hash db name type description metadata id entropyHex now =
      (db, .error ("Account \"" ++ name ++ "\" already exists")) := by
    unfold createAccount
    rw [hb]
  rw [hcreate]
  refine ⟨rfl, "Account \"" ++ name ++ "\" already exists", rfl, ?_⟩
  unfold registerStatus
  have hmsg : strContains "already exists" ("Account \"" ++ name ++ "\" already exists")
      = true := strContains_append_left _ _ _ (by decide)
  simp [hmsg]

/-- C7 witness: re-registering `kara` against the stored `Kara` record is a
409 conflict and the store is untouched. -/
theorem c7_duplicate_name_conflict_witness :
    (createAccount (fun s => "h|" ++ s) [accountC2] "kara" "human" none none
      "id-2" "e2" "2026-02-05T00:00:00.000Z").1 = [accountC2] ∧
    ∃ msg, (createAccount (fun s => "h|" ++ s) [accountC2] "kara" "human" none none
        "id-2" "e2" "2026-02-05T00:00:00.000Z").2 = .error msg ∧
      registerStatus (createAccount (fun s => "h|" ++ s) [accountC2] "kara" "human" none none
        "id-2" "e2" "2026-02-05T00:00:00.000Z").2 = 409 :=
  c7_duplicate_name_conflict (fun s => "h|" ++ s) [accountC2] "kara" "human" none none
    "id-2" "e2" "2026-02-05T00:00:00.000Z" accountC2 (List.mem_singleton.mpr rfl) (by decide)

/-- C10: a successful registration appends exactly one record initialized
at tier `free` with zero submissions, zero stored bytes, no last-submission
timestamp and an empty archive list, whose stored credential field is the
one-way hash of the plaintext key returned to the caller. -/
theorem c10_fresh_account_initial_state (hash : String → String) (db : Db)
    (name type : String) (description : Option String) (metadata : Option Json)
    (id entropyHex now : String)
    (hnew : db.find? (fun a => jsToLower a.name == jsToLower name) = none) :
    ∃ account : Account,
      (createAccount hash db name type description metadata id entropyHex now).2 =
        .ok (account, generateApiKey entropyHex) ∧
      (createAccount hash db name type description metadata id entropyHex now).1 =
        db ++ [account] ∧
      account.tier = "free" ∧ account.salvageCount = 0 ∧ account.totalBytes = 0 ∧
      account.lastSalvage = none ∧ account.salvageTxIds = [] ∧
      account.apiKeyHash = hash (generateApiKey entropyHex) := by
  unfold createAccount
  rw [hnew]
  exact ⟨_, rfl, rfl, rfl, rfl, rfl, rfl, rfl, rfl⟩

/-- C10 witness: registration into an empty store. -/
theorem c10_fresh_account_initial_state_witness :
    ∃ account : Account,
      (createAccount (fun s => "h|" ++ s) [] "Ada" "agent" none none
        "id-1" "e1" "2026-02-05T00:00:00.000Z").2 =
        .ok (account, generateApiKey "e1") ∧
      (createAccount (fun s => "h|" ++ s) [] "Ada" "agent" none none
        "id-1" "e1" "2026-02-05T00:00:00.000Z").1 = [] ++ [account] ∧
      account.tier = "free" ∧ account.salvageCount = 0 ∧ account.totalBytes = 0 ∧
      account.lastSalvage = none ∧ account.salvageTxIds = [] ∧
      account.apiKeyHash = (fun s => "h|" ++ s) (generateApiKey "e1") :=
  c10_fresh_account_initial_state (fun s => "h|" ++ s) [] "Ada" "agent" none none
    "id-1" "e1" "2026-02-05T00:00:00.000Z" rfl

/-- C8: after a successful credential rotation the old key no longer
authenticates while the freshly returned key authenticates to the same
account — under the stated freshness/injectivity side conditions on the
digest (the old key hashed only to this account, the fresh key's hash is
new to the store and differs from the old key's hash). -/
theorem c8_rotate_key_invalidates (hash : String → String) (db : Db)
    (accountId oldKey entropyHex now : String) (a0 : Account)
    (hfind : db.find? (fun a => a.id == accountId) = some a0)
    (hOldOnly : ∀ b ∈ db, b.apiKeyHash = hash oldKey → b.id = accountId)
    (hInj : hash oldKey ≠ hash (generateApiKey entropyHex))
    (hFresh : ∀ b ∈ db, b.apiKeyHash ≠ hash (generateApiKey entropyHex)) :
    (rotateKey hash db accountId entropyHex now).2 = .ok (generateApiKey entropyHex) ∧
    authenticate hash (rotateKey hash db accountId entropyHex now).1 oldKey = none ∧
    ∃ a, authenticate hash (rotateKey hash db accountId entropyHex now).1
        (generateApiKey entropyHex) = some a ∧ a.id = accountId := by
  have hrot : rotateKey hash db accountId entropyHex now =
      (db.map (fun a => if a.id == accountId then
        { a with apiKeyHash := hash (generateApiKey entropyHex), keyRotatedAt := some now }
      else a), .ok (generateApiKey entropyHex)) := by
    unfold rotateKey
    rw [hfind]
  refine ⟨by rw [hrot], ?_, ?_⟩
  · rw [hrot]
    unfold authenticate
    cases hpre : jsStartsWith "ns_" oldKey with
    | false => simp [hpre]
    | true =>
      rw [if_neg (by simp [hpre])]
      rw [List.find?_eq_none]
      intro x hx
      rw [List.mem_map] at hx
      obtain ⟨b, hb, rfl⟩ := hx
      by_cases hbid : (b.id == accountId) = true
      · rw [if_pos hbid]
        simp only [beq_iff_eq]
        exact fun h => hInj h.symm
      · rw [if_neg hbid]
        simp only [beq_iff_eq]
        intro h
        exact absurd (hOldOnly b hb h) (by simpa [beq_iff_eq] using hbid)
  · rw [hrot]
    unfold authenticate
    rw [if_neg (by simp [generateApiKey, jsStartsWith_append])]
    have hmem0 : a0 ∈ db := List.mem_of_find?_eq_some hfind
    have ha0id := List.find?_some hfind
    set rotated := db.map (fun a => if a.id == accountId then { a with apiKeyHash := hash (generateApiKey entropyHex), keyRotatedAt := some now } else a) with hrotated
    cases hf : rotated.find? (fun a => a.apiKeyHash == hash (generateApiKey entropyHex)) with
    | none =>
      exfalso
      rw [List.find?_eq_none] at hf
      refine hf { a0 with apiKeyHash := hash (generateApiKey entropyHex), keyRotatedAt := some now } ?_ (by simp)
      rw [hrotated, List.mem_map]
      exact ⟨a0, hmem0, by rw [if_pos ha0id]⟩
    | some a =>
      refine ⟨a, rfl, ?_⟩
      have hamem := List.mem_of_find?_eq_some hf
      have hapred := List.find?_some hf
      rw [hrotated, List.mem_map] at hamem
      obtain ⟨b, hb, rfl⟩ := hamem
      by_cases hbid : (b.id == accountId) = true
      · rw [if_pos hbid]
        simpa [beq_iff_eq] using hbid
      · rw [if_neg hbid] at hapred ⊢
        exact absurd (by simpa [beq_iff_eq] using hapred) (hFresh b hb)

/-- C8 witness: rotating the only account's key makes `ns_old` fail and the
returned `ns_fresh` authenticate to the same account. -/
theorem c8_rotate_key_invalidates_witness :
    (rotateKey (fun s => "h|" ++ s) [accountC8] "A1" "fresh" "2026-02-06T00:00:00.000Z").2 =
      .ok (generateApiKey "fresh") ∧
    authenticate (fun s => "h|" ++ s)
      (rotateKey (fun s => "h|" ++ s) [accountC8] "A1" "fresh" "2026-02-06T00:00:00.000Z").1
      "ns_old" = none ∧
    ∃ a, authenticate (fun s => "h|" ++ s)
        (rotateKey (fun s => "h|" ++ s) [accountC8] "A1" "fresh" "2026-02-06T00:00:00.000Z").1
        (generateApiKey "fresh") = some a ∧ a.id = "A1" :=
  c8_rotate_key_invalidates (fun s => "h|" ++ s) [accountC8] "A1" "ns_old" "fresh"
    "2026-02-06T00:00:00.000Z" accountC8 rfl
    (fun b hb h => by
      rw [List.mem_singleton] at hb
      subst hb
      rfl)
    (by decide) (by decide)

end NS
